import Mathlib

/-!
Verification of the good-news pipeline (`app/` package) against its
natural-language specification.

Shallow embedding conventions:
* SQLite rows of the `articles` table become the `Article` structure; the
  store is a `List Article`. `NULL`-able columns are `Option`s.
* Timestamps (`published`, `now`, cutoffs) are modelled as `Int` seconds,
  consistent with the code's use of lexicographically comparable ISO-8601
  UTC strings.
* Floats (sentiment scores, thresholds) are modelled as `ℚ`.
* Remote calls (NewsAPI, Groq) are modelled as explicit outcome parameters:
  the behaviour of a backend is a function from call site to an outcome
  value, and exceptions become explicit constructors.
-/

namespace GoodNews

/-- The four categories of `NewsJudgement.category`
(`Literal["cute_or_fun", "improvement", "heartwarming", "none"]`
in `app/filters/llm_filter.py`). -/
inductive JCategory where
  | cute_or_fun
  | improvement
  | heartwarming
  | none
deriving DecidableEq, Repr

/-- The string stored in the `category` column for a judgement category. -/
def JCategory.toText : JCategory → String
  | .cute_or_fun => "cute_or_fun"
  | .improvement => "improvement"
  | .heartwarming => "heartwarming"
  | .none => "none"

/-- Structured output schema of the classification backends
(`class NewsJudgement(BaseModel)` in `app/filters/llm_filter.py`). -/
structure NewsJudgement where
  is_good_news : Bool
  category : JCategory
  reason : String
deriving DecidableEq, Repr

/-- One row of the `articles` table (`SCHEMA_SQL` in `app/utils.py`).
`published` is `Option Int` seconds (NULL for rows never given a date),
`sentiment` is `Option ℚ`, `is_good` is the tri-state
{null, 0, 1} column as `Option Bool`. -/
structure Article where
  id : String
  title : String
  url : Option String
  content : Option String
  published : Option Int
  sentiment : Option ℚ
  is_good : Option Bool
  category : Option String
  reason : Option String
  source_type : String
deriving DecidableEq, Repr

/-- The article store: the rows of the `articles` table, in rowid order. -/
abbrev Store := List Article

/-- SQL `x < y` on the nullable `published` column compared against a
non-null cutoff: `NULL < c` is not true, so NULL-published rows never
satisfy the predicate. -/
def pubBefore : Option Int → Int → Bool
  | Option.none, _ => false
  | Option.some p, c => decide (p < c)

/-- Strict "published earlier than" between two nullable timestamps, as
SQLite's `ORDER BY published DESC` ranks them (NULL sorts below every
non-NULL value). -/
def pubLt : Option Int → Option Int → Bool
  | _, Option.none => false
  | Option.none, Option.some _ => true
  | Option.some x, Option.some y => decide (x < y)

/-- Seconds per day, for `timedelta(days=...)`. -/
def SECONDS_PER_DAY : Int := 86400

/-- `prune_old_articles` from `app/utils.py`:
`DELETE FROM articles WHERE published < ?` with cutoff
`utcnow() - timedelta(days=days_to_keep)`. The first component is the
surviving store; the second is the Python function's return value — the
function is annotated `-> None` and has no `return` statement, so it is
always `Option.none` (the removed count is only logged). -/
def prune_old_articles (days_to_keep : Nat) (now : Int) (store : Store) :
    Store × Option Nat :=
  let cutoff := now - days_to_keep * SECONDS_PER_DAY
  (store.filter (fun a => ! pubBefore a.published cutoff), Option.none)

/-- Look-back window (minutes) and article cap computed by `run_pipeline`
in `app/news_pipeline.py`: first run gives one week and 500 articles,
otherwise `max(5, elapsed_seconds // 60)` minutes and 100 articles. -/
def pipeline_window (first_run : Bool) (elapsed_seconds : Nat) : Nat × Nat :=
  if first_run then (24 * 7 * 60, 500)
  else (max 5 (elapsed_seconds / 60), 100)

/-- NewsAPI page size (`page_size = 100  # fixed (API max)` in
`app/fetchers/newsapi_fetcher.py`). -/
def PAGE_SIZE : Nat := 100

/-- The clamp `max_articles = min(max_articles, 100)` applied by
`fetch_latest_articles` before paging is computed. -/
def clamp_max_articles (max_articles : Nat) : Nat := min max_articles 100

/-- `max_pages = min((max_articles + page_size - 1) // page_size, 5)`
computed by `fetch_latest_articles` after the clamp. -/
def max_pages (max_articles : Nat) : Nat :=
  min ((clamp_max_articles max_articles + PAGE_SIZE - 1) / PAGE_SIZE) 5

/-- The articles gathered by the paging loop of `fetch_latest_articles`:
pages `1 .. max_pages` are visited in order and their articles appended
(the loop can stop early on a short page or on reaching the budget, which
only ever shrinks the result; the model takes the full bound). -/
def fetch_collect (pages : List (List Article)) (max_articles : Nat) :
    List Article :=
  (pages.take (max_pages max_articles)).flatten

/-- A label/score prediction returned by the external sentiment scorer for
one text (`pred["label"].lower()` and `pred["score"]` in
`app/filters/sentiment.py`). -/
structure SentimentPred where
  label : String
  score : ℚ

/-- Default rejection threshold of `run_sentiment`
(`max_negative_prob: float = 0.7`). -/
def DEFAULT_MAX_NEGATIVE_PROB : ℚ := 7 / 10

/-- The label-to-positivity mapping of `run_sentiment`: positive keeps the
score, negative takes `1 - score`, anything else (neutral) is 0.5. -/
def positivity (p : SentimentPred) : ℚ :=
  if p.label = "positive" then p.score
  else if p.label = "negative" then 1 - p.score
  else 1 / 2

/-- The per-row writes of `run_sentiment`: store `sentiment = positivity *
100`; then, when negativity `1 - positivity` exceeds the threshold, also
`UPDATE articles SET is_good=0` for the same row inside the same
transaction (the write happens whatever `is_good` held before). -/
def sentiment_update (max_negative_prob : ℚ) (p : SentimentPred)
    (a : Article) : Article :=
  let pos := positivity p
  let scored := { a with sentiment := Option.some (pos * 100) }
  if 1 - pos > max_negative_prob then
    { scored with is_good := Option.some false }
  else scored

/-- `run_sentiment` from `app/filters/sentiment.py`: exactly the rows with
`sentiment IS NULL` are scored (`pred` gives the classifier's output on
the row's `title + content` text); every other row is untouched. -/
def run_sentiment (max_negative_prob : ℚ) (pred : Article → SentimentPred)
    (store : Store) : Store :=
  store.map (fun a =>
    if a.sentiment = Option.none then
      sentiment_update max_negative_prob (pred a) a
    else a)

/-- Outcome of one `client.chat.completions.create` call inside `_judge`:
a parsed structured judgement, a rate-limit (429) exception, or any other
exception. -/
inductive CallResult where
  | success : NewsJudgement → CallResult
  | rateLimit : CallResult
  | failure : CallResult
deriving DecidableEq, Repr

/-- `MODEL_POOL` from `app/filters/llm_filter.py`. -/
def MODEL_POOL : List String :=
  ["llama-3.3-70b-versatile", "llama-3.1-8b-instant", "llama3-8b-8192"]

/-- `max_retries = 3` in `_judge`. -/
def MAX_RETRIES : Nat := 3

/-- The per-row trial list of `_judge`:
`MODEL_POOL[start_idx:] + MODEL_POOL[:start_idx]`, the pool rotated to
start at the cycle's current position. -/
def models_to_try (start_idx : Nat) : List String :=
  MODEL_POOL.drop start_idx ++ MODEL_POOL.take start_idx

/-- The attempt loop `for attempt in range(1, max_retries + 1)` of
`_judge` for a single model. `call attempt` is the outcome of the request
made on that attempt; the result is the number of calls actually made
paired with the judgement, if any. On success the function returns; on a
429 the source executes `break` (skip to the next model immediately); on
any other exception the source also executes `break` — so no branch ever
reaches a second iteration, and the fuel (remaining loop iterations) is
never consumed past the first. -/
def model_attempts (call : Nat → CallResult) :
    Nat → Nat → Nat × Option NewsJudgement
  | _, 0 => (0, Option.none)
  | attempt, _fuel + 1 =>
    match call attempt with
    | .success j => (1, Option.some j)
    | .rateLimit => (1, Option.none)
    | .failure => (1, Option.none)

/-- The model loop of `_judge`: walk the trial list in order; each model
runs its attempt loop; a success returns immediately, otherwise the next
model is tried; when the list is exhausted the result is `None`. Returns
the trace of (model, number of calls made) pairs alongside the result. -/
def judge_trials (call : String → Nat → CallResult) :
    List String → List (String × Nat) × Option NewsJudgement
  | [] => ([], Option.none)
  | m :: rest =>
    let r := model_attempts (call m) 1 MAX_RETRIES
    match r.2 with
    | Option.some j => ([(m, r.1)], Option.some j)
    | Option.none =>
      let t := judge_trials call rest
      ((m, r.1) :: t.1, t.2)

/-- The UPDATE performed by `filter_good._task` once `_judge` resolves:
with a judgement, `SET is_good = (1 if judgement.is_good_news else 0),
category = judgement.category, reason = judgement.reason`; with `None`
(all models failed), `SET is_good = 0` only, leaving `category` and
`reason` untouched. -/
def persist_verdict (j : Option NewsJudgement) (a : Article) : Article :=
  match j with
  | Option.some jj =>
    { a with is_good := Option.some jj.is_good_news,
             category := Option.some jj.category.toText,
             reason := Option.some jj.reason }
  | Option.none => { a with is_good := Option.some false }

/-- Processing of one row by `filter_good._task`: judge through the
rotated trial list, then persist the verdict. -/
def classify_row (call : String → Nat → CallResult) (start_idx : Nat)
    (a : Article) : Article :=
  persist_verdict (judge_trials call (models_to_try start_idx)).2 a

/-- `filter_good` from `app/filters/llm_filter.py`: the first
`batch_limit` rows with `is_good IS NULL` are classified and updated by
id; every other row is untouched. `callFor` gives each row's backend
behaviour and `startFor` the rotation position the shared cycle hands the
row. The `is_good = NULL` conjunct on the update mirrors that the UPDATE
targets exactly the selected rows (`id` is the primary key, so an id
identifies one row). -/
def filter_good (batch_limit : Nat)
    (callFor : Article → String → Nat → CallResult)
    (startFor : Article → Nat) (store : Store) : Store :=
  let targets :=
    ((store.filter (fun a => a.is_good = Option.none)).take batch_limit).map
      (fun a => a.id)
  store.map (fun a =>
    if targets.contains a.id ∧ a.is_good = Option.none then
      classify_row (callFor a) (startFor a) a
    else a)

/-- A user submission (title and story) accepted by the moderation check
in `render_submission_form`. -/
structure Submission where
  title : String
  content : String
deriving DecidableEq, Repr

/-- The row INSERTed by `render_submission_form` for an accepted
submission: `is_good = 1` (passed the check), no URL, the story in
`content`, a fixed reason, `source_type` and `category`
`'user_submitted'`, and no sentiment score. -/
def submission_row (sub : Submission) (sid : String) (now : Int) : Article :=
  { id := sid, title := sub.title, url := Option.none,
    content := Option.some sub.content,
    published := Option.some now,
    sentiment := Option.none,
    is_good := Option.some true,
    category := Option.some "user_submitted",
    reason := Option.some "Verified by user submission.",
    source_type := "user_submitted" }

/-- The INSERT of `render_submission_form` with its duplicate-id failure
swallowed (`except Exception: st.error(...)`): when the id already exists
the store is unchanged, otherwise the new row is appended. -/
def insert_submission (sub : Submission) (sid : String) (now : Int)
    (store : Store) : Store :=
  if store.any (fun a => a.id = sid) then store
  else store ++ [submission_row sub sid now]

/-- `INSERT` of one fetched article with the duplicate-id exception
swallowed (`except Exception: pass` in `fetch_latest_articles`). -/
def insert_ignore (store : Store) (a : Article) : Store :=
  if store.any (fun b => b.id = a.id) then store else store ++ [a]

/-- Outcome of `await fetch_latest_articles(...)` as seen by
`run_pipeline`: either the coroutine returns (possibly having handled its
own errors and inserted nothing), or it raises an exception — e.g. an
`aiohttp` network error, or the unbound-variable error on the
three-429s-on-page-1 path, none of which `run_pipeline` catches. -/
inductive FetchOutcome where
  | ok : List Article → FetchOutcome
  | exn : FetchOutcome

/-- Result of one `run_pipeline` invocation: the final store plus which
steps executed. -/
structure RunResult where
  store : Store
  fetch_completed : Bool
  sentiment_ran : Bool
  classify_ran : Bool
deriving Repr

/-- `run_pipeline` from `app/news_pipeline.py`: prune with 7-day
retention, compute the window, stamp the run time, then `await
fetch_latest_articles`, `run_sentiment` and `filter_good` in sequence.
No `try`/`except` surrounds the fetch, so a raised exception propagates
out of `run_pipeline` and the two filter steps never execute; when the
fetch returns normally the fetched articles are dedup-inserted and both
filter steps run with their default parameters (`run_sentiment()` and
`filter_good()` with `batch_limit=100`). -/
def run_pipeline (now : Int) (pred : Article → SentimentPred)
    (callFor : Article → String → Nat → CallResult)
    (startFor : Article → Nat) (fetch : FetchOutcome) (store : Store) :
    RunResult :=
  let pruned := (prune_old_articles 7 now store).1
  match fetch with
  | .exn =>
    { store := pruned, fetch_completed := false,
      sentiment_ran := false, classify_ran := false }
  | .ok arts =>
    let ingested := arts.foldl insert_ignore pruned
    let gated := run_sentiment DEFAULT_MAX_NEGATIVE_PROB pred ingested
    { store := filter_good 100 callFor startFor gated,
      fetch_completed := true, sentiment_ran := true, classify_ran := true }

/-- `lower(title)`: the case-insensitive dedup key of `get_good_news`. -/
def lowerTitle (a : Article) : String := a.title.toLower

/-- One step of the title dedup of `get_good_news`: if the group of `a`'s
lower-cased title is already represented, keep whichever of the
representative and `a` has the strictly later `published` (the
representative wins ties, matching a deterministic reading of
`ROW_NUMBER() ... ORDER BY published DESC`); otherwise `a` opens a new
group. -/
def insert_best (acc : List Article) (a : Article) : List Article :=
  if acc.any (fun b => lowerTitle b = lowerTitle a) then
    acc.map (fun b =>
      if lowerTitle b = lowerTitle a ∧ pubLt b.published a.published = true
      then a else b)
  else acc ++ [a]

/-- The `rn = 1` selection of `get_good_news`: for each case-insensitive
title group keep only the row ranked first by `published DESC`. -/
def dedup_latest (rows : List Article) : List Article :=
  rows.foldl insert_best []

/-- SQLite ordering on the nullable `sentiment` column (NULL below every
value), for `ORDER BY sentiment DESC`. -/
def sentLt : Option ℚ → Option ℚ → Bool
  | _, Option.none => false
  | Option.none, Option.some _ => true
  | Option.some x, Option.some y => decide (x < y)

/-- The `ORDER BY {order_clause}` of `get_good_news`: descending by
sentiment when `sort_by = "sentiment"`, else descending by `published`. -/
def order_le (sort_by : String) (a b : Article) : Bool :=
  if sort_by = "sentiment" then ! sentLt a.sentiment b.sentiment
  else ! pubLt a.published b.published

/-- `get_good_news` from `app/news_pipeline.py`: restrict to
`is_good = 1` rows, keep one row per case-insensitive title (the
most-recently published), order by the requested clause descending, and
`LIMIT ?`. -/
def get_good_news (limit : Nat) (sort_by : String) (store : Store) :
    List Article :=
  let good := store.filter (fun a => a.is_good = Option.some true)
  ((dedup_latest good).mergeSort (order_le sort_by)).take limit

/-- A concrete row builder used by concrete instances: only the fields a
claim exercises vary, the rest take the schema defaults. -/
def exRow (i : String) (pub : Option Int) (sent : Option ℚ)
    (good : Option Bool) : Article :=
  { id := i, title := "t", url := Option.none, content := Option.none,
    published := pub, sentiment := sent, is_good := good,
    category := Option.none, reason := Option.none,
    source_type := "ai_generated" }

end GoodNews

namespace GoodNews

/-- Flattening at most `k` pages of at most 100 articles each yields at
most `k * 100` articles. -/
theorem flatten_take_length_le (pages : List (List Article)) (k : Nat)
    (hp : ∀ p ∈ pages, p.length ≤ 100) :
    ((pages.take k).flatten).length ≤ k * 100 := by
  induction pages generalizing k with
  | nil => simp
  | cons p rest ih =>
    cases k with
    | zero => simp
    | succ k =>
      have h1 : p.length ≤ 100 := hp p (by simp)
      have h2 := ih (k := k) (fun q hq => hp q (by simp [hq]))
      simp only [List.take_succ_cons, List.flatten_cons, List.length_append]
      omega

/-- Claim C7: `pipeline_window` returns look-back 10080 and cap 500 on a
first run regardless of elapsed time; otherwise cap 100 and look-back
`max 5 (elapsed minutes)`, so 2 elapsed minutes give 5 and 42 elapsed
minutes give 42. -/
theorem pipeline_window_spec :
    (∀ e : Nat, pipeline_window true e = (10080, 500)) ∧
    (∀ e : Nat, pipeline_window false e = (max 5 (e / 60), 100)) ∧
    pipeline_window false 120 = (5, 100) ∧
    pipeline_window false 2520 = (42, 100) := by
  refine ⟨fun e => rfl, fun e => rfl, ?_, ?_⟩ <;> decide

/-- Claim C10: the requested article budget is clamped to at most 100
before paging is computed, so any fetch — including the first run's
request for 500 — visits at most one page and retrieves at most 100
articles. -/
theorem fetch_budget_clamped (b : Nat) (pages : List (List Article))
    (hp : ∀ p ∈ pages, p.length ≤ PAGE_SIZE) :
    clamp_max_articles b ≤ 100 ∧ max_pages b ≤ 1 ∧
    clamp_max_articles 500 = 100 ∧ max_pages 500 = 1 ∧
    (fetch_collect pages b).length ≤ 100 := by
  have hpages : max_pages b ≤ 1 := by
    simp only [max_pages, clamp_max_articles, PAGE_SIZE]
    omega
  refine ⟨?_, hpages, by decide, by decide, ?_⟩
  · simp only [clamp_max_articles]; omega
  · have := flatten_take_length_le pages (max_pages b)
      (fun p h => by simpa [PAGE_SIZE] using hp p h)
    calc ((pages.take (max_pages b)).flatten).length
        ≤ max_pages b * 100 := this
      _ ≤ 1 * 100 := Nat.mul_le_mul_right 100 hpages
      _ = 100 := by omega

/-- Witness for C10 at a concrete budget and page list. -/
theorem fetch_budget_clamped_witness :
    (∀ p ∈ [[exRow "a" (Option.some 0) Option.none Option.none]],
        p.length ≤ PAGE_SIZE) ∧
    (fetch_collect [[exRow "a" (Option.some 0) Option.none Option.none]]
        500).length ≤ 100 :=
  ⟨by decide,
   (fetch_budget_clamped 500 _ (by decide)).2.2.2.2⟩

/-- Claim C9 counterexample: with a 7-day retention, a store holding one
row published at time 0 pruned at `now = 10000000` loses that row, yet the
function's return value is `None`, not the removed count 1 — the claim
that `prune` returns the count of rows removed fails here. -/
theorem prune_returns_no_count_cex :
    (prune_old_articles 7 10000000
        [exRow "a" (Option.some 0) Option.none Option.none]).1 = [] ∧
    (prune_old_articles 7 10000000
        [exRow "a" (Option.some 0) Option.none Option.none]).2 = Option.none ∧
    (Option.none : Option Nat) ≠ Option.some 1 := by
  refine ⟨?_, rfl, by decide⟩
  decide

/-- Claim C9 (amended): `prune_old_articles` keeps exactly the rows whose
`published` is not strictly before `now − retention` (NULL-published rows
are never deleted), removes nothing else, and returns no count — its
Python return value is `None`; the removed count is only logged. -/
theorem prune_old_articles_spec (days : Nat) (now : Int) (store : Store) :
    (∀ a ∈ store, (a ∈ (prune_old_articles days now store).1 ↔
        pubBefore a.published (now - days * SECONDS_PER_DAY) = false)) ∧
    (∀ a ∈ (prune_old_articles days now store).1, a ∈ store) ∧
    (prune_old_articles days now store).2 = Option.none := by
  refine ⟨fun a ha => ?_, fun a ha => ?_, rfl⟩
  · simp [prune_old_articles, List.mem_filter, ha, Bool.not_eq_true']
  · have h : (prune_old_articles days now store).1 = store.filter
        (fun a => ! pubBefore a.published (now - days * SECONDS_PER_DAY)) := rfl
    rw [h] at ha
    exact (List.mem_filter.mp ha).1

/-- Witness for the amended C9 at a concrete store: the old row is deleted,
the fresh row survives, and the return value is `None`. -/
theorem prune_old_articles_spec_witness :
    (exRow "new" (Option.some 9999999) Option.none Option.none ∈
      (prune_old_articles 7 10000000
        [exRow "old" (Option.some 0) Option.none Option.none,
         exRow "new" (Option.some 9999999) Option.none Option.none]).1) ∧
    (prune_old_articles 7 10000000
        [exRow "old" (Option.some 0) Option.none Option.none,
         exRow "new" (Option.some 9999999) Option.none Option.none]).2 =
      Option.none := by
  constructor
  · exact ((prune_old_articles_spec 7 10000000 _).1 _ (by decide)).mpr (by decide)
  · exact (prune_old_articles_spec 7 10000000 _).2.2

/-- Claim C8: for every row the sentiment gate scores (those with
`sentiment IS NULL`), the stored sentiment is 100 times the positivity
given by positive→confidence, negative→1−confidence, neutral→0.5, and
whenever negativity `1 − positivity` exceeds the default 0.7 threshold,
`is_good` is set to false in the same write. -/
theorem run_sentiment_scoring (pred : Article → SentimentPred)
    (store : Store) (i : Nat) (a : Article)
    (ha : store[i]? = Option.some a) (hs : a.sentiment = Option.none) :
    (run_sentiment DEFAULT_MAX_NEGATIVE_PROB pred store)[i]? =
      Option.some (sentiment_update DEFAULT_MAX_NEGATIVE_PROB (pred a) a) ∧
    (sentiment_update DEFAULT_MAX_NEGATIVE_PROB (pred a) a).sentiment =
      Option.some (positivity (pred a) * 100) ∧
    (1 - positivity (pred a) > DEFAULT_MAX_NEGATIVE_PROB →
      (sentiment_update DEFAULT_MAX_NEGATIVE_PROB (pred a) a).is_good =
        Option.some false) ∧
    (∀ s : ℚ, positivity ⟨"positive", s⟩ = s ∧
      positivity ⟨"negative", s⟩ = 1 - s ∧
      positivity ⟨"neutral", s⟩ = 1 / 2) := by
  refine ⟨?_, ?_, ?_, ?_⟩
  · rw [run_sentiment, List.getElem?_map, ha]
    simp [hs]
  · by_cases h : 1 - positivity (pred a) > DEFAULT_MAX_NEGATIVE_PROB <;>
      simp [sentiment_update, h]
  · intro h
    simp [sentiment_update, h]
  · intro s
    refine ⟨rfl, rfl, rfl⟩

/-- Witness for C8: a row scored negative with confidence 0.9 is stored
with sentiment 10 and `is_good = false`. -/
theorem run_sentiment_scoring_witness :
    (run_sentiment DEFAULT_MAX_NEGATIVE_PROB
        (fun _ => ⟨"negative", 9 / 10⟩)
        [exRow "a" Option.none Option.none Option.none])[0]? =
      Option.some (sentiment_update DEFAULT_MAX_NEGATIVE_PROB
        ⟨"negative", 9 / 10⟩ (exRow "a" Option.none Option.none Option.none)) ∧
    (sentiment_update DEFAULT_MAX_NEGATIVE_PROB ⟨"negative", 9 / 10⟩
        (exRow "a" Option.none Option.none Option.none)).sentiment =
      Option.some 10 ∧
    (sentiment_update DEFAULT_MAX_NEGATIVE_PROB ⟨"negative", 9 / 10⟩
        (exRow "a" Option.none Option.none Option.none)).is_good =
      Option.some false := by
  obtain ⟨h1, h2, h3, h4⟩ := run_sentiment_scoring
    (fun _ => ⟨"negative", 9 / 10⟩)
    [exRow "a" Option.none Option.none Option.none] 0
    (exRow "a" Option.none Option.none Option.none) rfl rfl
  have hp : positivity ⟨"negative", 9 / 10⟩ = 1 - 9 / 10 := (h4 (9 / 10)).2.1
  refine ⟨h1, ?_, h3 (by rw [hp]; norm_num [DEFAULT_MAX_NEGATIVE_PROB])⟩
  rw [h2, hp]
  norm_num

/-- Claim C1 counterexample: a verdict whose backend boolean contradicts
its category — `is_good_news = true` with `category = "none"` — is
persisted with `is_good = true`, not the `false` the claim requires for
category "none". -/
theorem persist_category_coupling_cex :
    (persist_verdict
        (Option.some ⟨true, JCategory.none, "ok"⟩)
        (exRow "a" Option.none Option.none Option.none)).is_good =
      Option.some true ∧
    (⟨true, JCategory.none, "ok"⟩ : NewsJudgement).category =
      JCategory.none ∧
    Option.some true ≠ (Option.some false : Option Bool) :=
  ⟨rfl, rfl, by decide⟩

/-- Claim C1 (amended): the persisted `is_good` is exactly the backend's
returned boolean, with the category and reason stored verbatim alongside;
the engine never clamps `is_good` from the category. -/
theorem persist_verdict_stores_boolean (j : NewsJudgement) (a : Article) :
    (persist_verdict (Option.some j) a).is_good =
      Option.some j.is_good_news ∧
    (persist_verdict (Option.some j) a).category =
      Option.some j.category.toText ∧
    (persist_verdict (Option.some j) a).reason = Option.some j.reason :=
  ⟨rfl, rfl, rfl⟩

/-- `sentiment_update` always records the scaled positivity, whichever
branch the threshold test takes. -/
theorem sentiment_update_sentiment (t : ℚ) (p : SentimentPred) (a : Article) :
    (sentiment_update t p a).sentiment = Option.some (positivity p * 100) := by
  by_cases h : 1 - positivity p > t <;> simp [sentiment_update, h]

/-- When negativity exceeds the threshold, `sentiment_update` writes
`is_good = false` regardless of the previous value. -/
theorem sentiment_update_is_good_of_gt (t : ℚ) (p : SentimentPred)
    (a : Article) (h : 1 - positivity p > t) :
    (sentiment_update t p a).is_good = Option.some false := by
  simp [sentiment_update, h]

/-- When negativity does not exceed the threshold, `sentiment_update`
leaves `is_good` as it was. -/
theorem sentiment_update_is_good_of_le (t : ℚ) (p : SentimentPred)
    (a : Article) (h : ¬ 1 - positivity p > t) :
    (sentiment_update t p a).is_good = a.is_good := by
  simp [sentiment_update, h]

/-- The positivity of a negative label is one minus the confidence. -/
theorem positivity_negative (s : ℚ) : positivity ⟨"negative", s⟩ = 1 - s :=
  rfl

/-- `persist_verdict` always writes a non-NULL `is_good`. -/
theorem persist_verdict_sets_is_good (j : Option NewsJudgement)
    (a : Article) : (persist_verdict j a).is_good ≠ Option.none := by
  cases j <;> simp [persist_verdict]

/-- A user-submitted row as stored by `render_submission_form`:
`is_good = 1` and `sentiment = NULL`. -/
def userRow : Article := submission_row ⟨"My good day", "story"⟩ "sub1" 0

/-- Claim C2 counterexample: a user-submitted row is stored with
`is_good = true` and no sentiment score, so the next sentiment gate run
selects it (`sentiment IS NULL`) and — when its text scores negative with
confidence 0.9 — re-writes its already-set `is_good` to `false`: the
claimed write-once property of `is_good` fails. -/
theorem is_good_overwritten_cex :
    userRow.is_good = Option.some true ∧
    (run_sentiment DEFAULT_MAX_NEGATIVE_PROB
        (fun _ => ⟨"negative", 9 / 10⟩) [userRow])[0]? =
      Option.some (sentiment_update DEFAULT_MAX_NEGATIVE_PROB
        ⟨"negative", 9 / 10⟩ userRow) ∧
    (sentiment_update DEFAULT_MAX_NEGATIVE_PROB ⟨"negative", 9 / 10⟩
        userRow).is_good = Option.some false := by
  refine ⟨rfl, ?_, ?_⟩
  · rw [run_sentiment, List.getElem?_map]
    rfl
  · exact sentiment_update_is_good_of_gt _ _ _
      (by rw [positivity_negative]; norm_num [DEFAULT_MAX_NEGATIVE_PROB])

/-- Claim C2 (amended): no core operation ever resets a set `is_good`
back to NULL; the classification engine only writes rows whose `is_good`
is NULL; the sentiment gate leaves already-scored rows untouched; and a
user submission never modifies existing rows (the only new row it adds
carries `is_good = true`). However, the sentiment gate selects rows by
`sentiment IS NULL`, not by `is_good IS NULL`, so it can overwrite the
already-set `is_good` of a not-yet-scored row (a user submission). -/
theorem is_good_transitions (thr : ℚ) (pred : Article → SentimentPred)
    (lim : Nat) (callFor : Article → String → Nat → CallResult)
    (startFor : Article → Nat) (sub : Submission) (sid : String)
    (now : Int) (store : Store) (i : Nat) (a : Article)
    (ha : store[i]? = Option.some a) :
    (∃ b, (run_sentiment thr pred store)[i]? = Option.some b ∧
      (b.is_good = Option.none → a.is_good = Option.none) ∧
      (a.sentiment ≠ Option.none → b = a)) ∧
    (∃ c, (filter_good lim callFor startFor store)[i]? = Option.some c ∧
      (c.is_good = Option.none → a.is_good = Option.none) ∧
      (a.is_good ≠ Option.none → c = a)) ∧
    ((insert_submission sub sid now store)[i]? = Option.some a) ∧
    (∀ d ∈ insert_submission sub sid now store,
      d ∈ store ∨ d.is_good = Option.some true) := by
  refine ⟨?_, ?_, ?_, ?_⟩
  · refine ⟨if a.sentiment = Option.none then
        sentiment_update thr (pred a) a else a, ?_, ?_, ?_⟩
    · rw [run_sentiment, List.getElem?_map, ha]
      rfl
    · by_cases hs : a.sentiment = Option.none
      · simp only [hs, if_pos]
        by_cases hn : 1 - positivity (pred a) > thr
        · rw [sentiment_update_is_good_of_gt thr (pred a) a hn]
          intro h
          cases h
        · rw [sentiment_update_is_good_of_le thr (pred a) a hn]
          exact id
      · simp [hs]
    · intro h
      simp [h]
  · refine ⟨if (((store.filter (fun x => x.is_good = Option.none)).take
        lim).map (fun x => x.id)).contains a.id ∧ a.is_good = Option.none
        then classify_row (callFor a) (startFor a) a else a, ?_, ?_, ?_⟩
    · simp only [filter_good]
      rw [List.getElem?_map, ha]
      rfl
    · by_cases hcond :
        (((store.filter (fun a => a.is_good = Option.none)).take lim).map
          (fun a => a.id)).contains a.id ∧ a.is_good = Option.none
      · simp only [hcond, if_pos]
        intro h
        exact absurd h (persist_verdict_sets_is_good _ _)
      · simp only [hcond, if_neg, not_false_iff]
        exact id
    · intro h
      have hcond : ¬ ((((store.filter
          (fun x => x.is_good = Option.none)).take lim).map
            (fun x => x.id)).contains a.id ∧ a.is_good = Option.none) := by
        intro hc
        exact h hc.2
      rw [if_neg hcond]
  · rw [insert_submission]
    by_cases hany : store.any (fun a => a.id = sid)
    · simp [hany, ha]
    · simp only [hany, if_neg, Bool.false_eq_true, not_false_iff]
      rw [List.getElem?_append_left (List.getElem?_eq_some.mp ha).1]
      exact ha
  · intro d hd
    rw [insert_submission] at hd
    by_cases hany : store.any (fun a => a.id = sid)
    · simp only [hany, if_pos] at hd
      exact Or.inl hd
    · simp only [hany, Bool.false_eq_true, if_neg, not_false_iff] at hd
      rcases List.mem_append.mp hd with h | h
      · exact Or.inl h
      · right
        rw [List.mem_singleton.mp h]
        rfl

/-- Witness for the amended C2 at a concrete one-row store. -/
theorem is_good_transitions_witness :
    (insert_submission ⟨"t2", "c2"⟩ "sid2" 0 [userRow])[0]? =
      Option.some userRow :=
  (is_good_transitions (7 / 10) (fun _ => ⟨"neutral", 1⟩) 100
    (fun _ _ _ => CallResult.failure) (fun _ => 0) ⟨"t2", "c2"⟩ "sid2" 0
    [userRow] 0 userRow rfl).2.2.1

/-- Claim C3 counterexample: with every backend raising a non-rate-limit
error, the engine makes exactly one call to the first backend — not the
claimed 3 — before moving to the next, and likewise down the whole trial
list. -/
theorem judge_retry_budget_cex :
    (judge_trials (fun _ _ => CallResult.failure) MODEL_POOL).1 =
      [("llama-3.3-70b-versatile", 1), ("llama-3.1-8b-instant", 1),
       ("llama3-8b-8192", 1)] ∧
    (1 : Nat) ≠ 3 :=
  ⟨rfl, by decide⟩

/-- Claim C3 (amended): for every backend behaviour and trial list, each
backend in the trial list is called at most once per row — `max_retries =
3` is declared but unreachable, because the error handler breaks out of
the attempt loop on any error, rate-limit or not — and the engine walks
the trial list in order, consulting exactly its successive members. -/
theorem judge_one_attempt_per_model (call : String → Nat → CallResult)
    (models : List String) :
    (∀ p ∈ (judge_trials call models).1, p.2 = 1) ∧
    (judge_trials call models).1.map Prod.fst =
      models.take (judge_trials call models).1.length := by
  induction models with
  | nil => exact ⟨fun p hp => absurd hp (List.not_mem_nil p), rfl⟩
  | cons m rest ih =>
    cases hc : call m 1 with
    | success j =>
      refine ⟨fun p hp => ?_, ?_⟩
      · simp only [judge_trials, model_attempts, MAX_RETRIES, hc,
          List.mem_singleton] at hp
        rw [hp]
      · simp [judge_trials, model_attempts, MAX_RETRIES, hc]
    | rateLimit =>
      refine ⟨fun p hp => ?_, ?_⟩
      · simp only [judge_trials, model_attempts, MAX_RETRIES, hc,
          List.mem_cons] at hp
        rcases hp with h | h
        · rw [h]
        · exact ih.1 p h
      · simp only [judge_trials, model_attempts, MAX_RETRIES, hc,
          List.map_cons, List.length_cons, List.take_succ_cons]
        rw [ih.2]
    | failure =>
      refine ⟨fun p hp => ?_, ?_⟩
      · simp only [judge_trials, model_attempts, MAX_RETRIES, hc,
          List.mem_cons] at hp
        rcases hp with h | h
        · rw [h]
        · exact ih.1 p h
      · simp only [judge_trials, model_attempts, MAX_RETRIES, hc,
          List.map_cons, List.length_cons, List.take_succ_cons]
        rw [ih.2]

/-- Witness for the amended C3 at a concrete backend behaviour. -/
theorem judge_one_attempt_per_model_witness :
    (judge_trials (fun _ _ => CallResult.rateLimit) MODEL_POOL).1.map
      Prod.fst =
    MODEL_POOL.take
      (judge_trials (fun _ _ => CallResult.rateLimit) MODEL_POOL).1.length :=
  (judge_one_attempt_per_model (fun _ _ => CallResult.rateLimit)
    MODEL_POOL).2

/-- When every call errs (rate-limit or otherwise), the model loop of
`_judge` reaches the end of the trial list and yields `None`. -/
theorem judge_trials_none_of_all_fail (call : String → Nat → CallResult)
    (h : ∀ m att j, call m att ≠ CallResult.success j)
    (models : List String) :
    (judge_trials call models).2 = Option.none := by
  induction models with
  | nil => rfl
  | cons m rest ih =>
    cases hc : call m 1 with
    | success j => exact absurd hc (h m 1 j)
    | rateLimit =>
      simp only [judge_trials, model_attempts, MAX_RETRIES, hc]
      exact ih
    | failure =>
      simp only [judge_trials, model_attempts, MAX_RETRIES, hc]
      exact ih

/-- Claim C4: when every backend call for a row fails, `_judge` resolves
to `None` and the persisted state of the row is `is_good = false` with the
category left unset — never a lingering NULL `is_good`. -/
theorem classify_failure_terminal (call : String → Nat → CallResult)
    (h : ∀ m att j, call m att ≠ CallResult.success j) (start_idx : Nat)
    (a : Article) (hcat : a.category = Option.none) :
    (judge_trials call (models_to_try start_idx)).2 = Option.none ∧
    (classify_row call start_idx a).is_good = Option.some false ∧
    (classify_row call start_idx a).category = Option.none ∧
    (classify_row call start_idx a).is_good ≠ Option.none := by
  have hj := judge_trials_none_of_all_fail call h (models_to_try start_idx)
  rw [classify_row, hj]
  exact ⟨rfl, rfl, hcat, by simp [persist_verdict]⟩

/-- Witness for C4 at a concrete always-failing backend behaviour. -/
theorem classify_failure_terminal_witness :
    (classify_row (fun _ _ => CallResult.failure) 0
        (exRow "a" Option.none Option.none Option.none)).is_good =
      Option.some false :=
  (classify_failure_terminal (fun _ _ => CallResult.failure)
    (fun _ _ _ hc => CallResult.noConfusion hc) 0
    (exRow "a" Option.none Option.none Option.none) rfl).2.1

/-- Claim C5 counterexample: with one unscored row already in the store,
a run whose fetch raises (an outcome `run_pipeline` does not catch) ends
with the sentiment gate and classification engine never having run — the
surviving row still has `sentiment = NULL`, `is_good = NULL` — so an
ingestion failure can prevent steps 6–7. -/
theorem pipeline_fetch_exn_cex :
    (run_pipeline 0 (fun _ => ⟨"neutral", 1⟩)
        (fun _ _ _ => CallResult.failure) (fun _ => 0) FetchOutcome.exn
        [exRow "a" (Option.some 0) Option.none Option.none]).sentiment_ran
      = false ∧
    (run_pipeline 0 (fun _ => ⟨"neutral", 1⟩)
        (fun _ _ _ => CallResult.failure) (fun _ => 0) FetchOutcome.exn
        [exRow "a" (Option.some 0) Option.none Option.none]).classify_ran
      = false ∧
    (run_pipeline 0 (fun _ => ⟨"neutral", 1⟩)
        (fun _ _ _ => CallResult.failure) (fun _ => 0) FetchOutcome.exn
        [exRow "a" (Option.some 0) Option.none Option.none]).store =
      [exRow "a" (Option.some 0) Option.none Option.none] :=
  ⟨rfl, rfl, rfl⟩

/-- Claim C5 (amended): when the fetch coroutine returns normally — which
covers every failure the fetcher handles internally: missing API key,
non-200 responses, API-level error payloads — the sentiment gate and the
classification engine do run over the store; but `run_pipeline` wraps the
fetch in no exception handler, so a fetch that raises prevents both from
running. -/
theorem pipeline_steps_after_fetch (now : Int)
    (pred : Article → SentimentPred)
    (callFor : Article → String → Nat → CallResult)
    (startFor : Article → Nat) (arts : List Article) (store : Store) :
    ((run_pipeline now pred callFor startFor (FetchOutcome.ok arts)
        store).sentiment_ran = true ∧
     (run_pipeline now pred callFor startFor (FetchOutcome.ok arts)
        store).classify_ran = true) ∧
    ((run_pipeline now pred callFor startFor FetchOutcome.exn
        store).sentiment_ran = false ∧
     (run_pipeline now pred callFor startFor FetchOutcome.exn
        store).classify_ran = false) :=
  ⟨⟨rfl, rfl⟩, ⟨rfl, rfl⟩⟩

/-- `pubLt` is transitive. -/
theorem pubLt_trans (x y z : Option Int) (h1 : pubLt x y = true)
    (h2 : pubLt y z = true) : pubLt x z = true := by
  cases x <;> cases y <;> cases z <;> simp [pubLt] at * <;> omega

/-- `pubLt` is irreflexive. -/
theorem pubLt_irrefl (x : Option Int) : pubLt x x = false := by
  cases x <;> simp [pubLt]

/-- The replacement step of `insert_best` never changes the lower-cased
title of an accumulator entry. -/
theorem insert_best_title (a b : Article) :
    lowerTitle (if lowerTitle b = lowerTitle a ∧
        pubLt b.published a.published = true then a else b) =
      lowerTitle b := by
  by_cases h : lowerTitle b = lowerTitle a ∧
      pubLt b.published a.published = true
  · rw [if_pos h, h.1]
  · rw [if_neg h]

/-- One step of the dedup fold preserves its invariants: the accumulator
holds pairwise-distinct lower-cased titles, draws its rows from the
processed input, each entry is maximal by `pubLt` within its title group
over the processed input, and every processed title group is
represented. -/
theorem insert_best_inv (processed acc : List Article) (a : Article)
    (h1 : acc.Pairwise (fun x y => lowerTitle x ≠ lowerTitle y))
    (h2 : ∀ x ∈ acc, x ∈ processed)
    (h3 : ∀ x ∈ acc, ∀ s ∈ processed, lowerTitle s = lowerTitle x →
        pubLt x.published s.published = false)
    (h4 : ∀ s ∈ processed, ∃ x ∈ acc, lowerTitle x = lowerTitle s) :
    (insert_best acc a).Pairwise
        (fun x y => lowerTitle x ≠ lowerTitle y) ∧
    (∀ x ∈ insert_best acc a, x ∈ processed ++ [a]) ∧
    (∀ x ∈ insert_best acc a, ∀ s ∈ processed ++ [a],
        lowerTitle s = lowerTitle x →
        pubLt x.published s.published = false) ∧
    (∀ s ∈ processed ++ [a], ∃ x ∈ insert_best acc a,
        lowerTitle x = lowerTitle s) := by
  by_cases hz : acc.any (fun b => lowerTitle b = lowerTitle a)
  · rw [insert_best, if_pos hz]
    refine ⟨?_, ?_, ?_, ?_⟩
    · rw [List.pairwise_map]
      refine h1.imp ?_
      intro x y hxy
      rw [insert_best_title, insert_best_title]
      exact hxy
    · intro x hx
      obtain ⟨b, hb, hgb⟩ := List.mem_map.mp hx
      by_cases hc : lowerTitle b = lowerTitle a ∧
          pubLt b.published a.published = true
      · rw [if_pos hc] at hgb
        rw [← hgb]
        exact List.mem_append.mpr (Or.inr (List.mem_singleton.mpr rfl))
      · rw [if_neg hc] at hgb
        rw [← hgb]
        exact List.mem_append.mpr (Or.inl (h2 b hb))
    · intro x hx s hs hts
      obtain ⟨b, hb, hgb⟩ := List.mem_map.mp hx
      by_cases hc : lowerTitle b = lowerTitle a ∧
          pubLt b.published a.published = true
      · rw [if_pos hc] at hgb
        subst hgb
        rcases List.mem_append.mp hs with hsp | hsa
        · by_contra hlt
          rw [Bool.not_eq_false] at hlt
          have hbs : pubLt b.published s.published = false :=
            h3 b hb s hsp (by rw [hts, ← hc.1])
          have : pubLt b.published s.published = true :=
            pubLt_trans _ _ _ hc.2 hlt
          rw [this] at hbs
          cases hbs
        · rw [List.mem_singleton.mp hsa]
          exact pubLt_irrefl _
      · rw [if_neg hc] at hgb
        subst hgb
        rcases List.mem_append.mp hs with hsp | hsa
        · exact h3 b hb s hsp hts
        · rw [List.mem_singleton.mp hsa] at hts ⊢
          rcases Decidable.em
              (pubLt b.published a.published = true) with hp | hp
          · exact absurd ⟨hts.symm, hp⟩ hc
          · exact Bool.not_eq_true _ |>.mp hp
    · intro s hs
      rcases List.mem_append.mp hs with hsp | hsa
      · obtain ⟨x, hx, htx⟩ := h4 s hsp
        refine ⟨_, List.mem_map.mpr ⟨x, hx, rfl⟩, ?_⟩
        rw [insert_best_title]
        exact htx
      · obtain ⟨b, hb, htb⟩ := List.any_eq_true.mp hz
        rw [List.mem_singleton.mp hsa]
        refine ⟨_, List.mem_map.mpr ⟨b, hb, rfl⟩, ?_⟩
        rw [insert_best_title]
        exact of_decide_eq_true htb
  · rw [insert_best, if_neg hz]
    have hnot : ∀ b ∈ acc, ¬ lowerTitle b = lowerTitle a := by
      intro b hb
      intro hbt
      exact hz (List.any_eq_true.mpr ⟨b, hb, decide_eq_true hbt⟩)
    refine ⟨?_, ?_, ?_, ?_⟩
    · rw [List.pairwise_append]
      refine ⟨h1, List.pairwise_singleton _ _, ?_⟩
      intro x hx y hy
      rw [List.mem_singleton.mp hy]
      exact hnot x hx
    · intro x hx
      rcases List.mem_append.mp hx with h | h
      · exact List.mem_append.mpr (Or.inl (h2 x h))
      · exact List.mem_append.mpr (Or.inr h)
    · intro x hx s hs hts
      rcases List.mem_append.mp hx with hxacc | hxa
      · rcases List.mem_append.mp hs with hsp | hsa
        · exact h3 x hxacc s hsp hts
        · rw [List.mem_singleton.mp hsa] at hts
          exact absurd (hts ▸ rfl : lowerTitle a = lowerTitle x).symm
            (hnot x hxacc)
      · rw [List.mem_singleton.mp hxa]
        rw [List.mem_singleton.mp hxa] at hts
        rcases List.mem_append.mp hs with hsp | hsa
        · obtain ⟨y, hy, hty⟩ := h4 s hsp
          exact absurd (hty.trans hts) (hnot y hy)
        · rw [List.mem_singleton.mp hsa]
          exact pubLt_irrefl _
    · intro s hs
      rcases List.mem_append.mp hs with hsp | hsa
      · obtain ⟨x, hx, htx⟩ := h4 s hsp
        exact ⟨x, List.mem_append.mpr (Or.inl hx), htx⟩
      · rw [List.mem_singleton.mp hsa]
        exact ⟨a, List.mem_append.mpr
          (Or.inr (List.mem_singleton.mpr rfl)), rfl⟩

/-- The dedup fold maintains the `insert_best` invariants across a whole
input list. -/
theorem foldl_insert_best_inv (rows : List Article) :
    ∀ acc processed : List Article,
    acc.Pairwise (fun x y => lowerTitle x ≠ lowerTitle y) →
    (∀ x ∈ acc, x ∈ processed) →
    (∀ x ∈ acc, ∀ s ∈ processed, lowerTitle s = lowerTitle x →
        pubLt x.published s.published = false) →
    (∀ s ∈ processed, ∃ x ∈ acc, lowerTitle x = lowerTitle s) →
    ((rows.foldl insert_best acc).Pairwise
        (fun x y => lowerTitle x ≠ lowerTitle y) ∧
     (∀ x ∈ rows.foldl insert_best acc, x ∈ processed ++ rows) ∧
     (∀ x ∈ rows.foldl insert_best acc, ∀ s ∈ processed ++ rows,
        lowerTitle s = lowerTitle x →
        pubLt x.published s.published = false) ∧
     (∀ s ∈ processed ++ rows, ∃ x ∈ rows.foldl insert_best acc,
        lowerTitle x = lowerTitle s)) := by
  induction rows with
  | nil =>
    intro acc processed h1 h2 h3 h4
    simpa using ⟨h1, h2, h3, h4⟩
  | cons a rest ih =>
    intro acc processed h1 h2 h3 h4
    obtain ⟨g1, g2, g3, g4⟩ := insert_best_inv processed acc a h1 h2 h3 h4
    have := ih (insert_best acc a) (processed ++ [a]) g1 g2 g3 g4
    simpa [List.append_assoc] using this

/-- `dedup_latest` returns rows of its input with pairwise-distinct
lower-cased titles, each maximal by publication time within its
case-insensitive title group. -/
theorem dedup_latest_spec (rows : List Article) :
    (dedup_latest rows).Pairwise
        (fun x y => lowerTitle x ≠ lowerTitle y) ∧
    (∀ x ∈ dedup_latest rows, x ∈ rows) ∧
    (∀ x ∈ dedup_latest rows, ∀ s ∈ rows,
        lowerTitle s = lowerTitle x →
        pubLt x.published s.published = false) := by
  have h := foldl_insert_best_inv rows [] []
    List.Pairwise.nil
    (fun x hx => absurd hx (List.not_mem_nil x))
    (fun x hx => absurd hx (List.not_mem_nil x))
    (fun s hs => absurd hs (List.not_mem_nil s))
  rw [List.nil_append] at h
  exact ⟨h.1, h.2.1, h.2.2.1⟩

/-- Claim C6: `get_good_news` returns only rows of the store with
`is_good = true`, never two rows with the same case-insensitive title;
each returned row's `published` is maximal among the store's good rows
sharing its case-insensitive title; and at most `limit` rows are
returned. -/
theorem get_good_news_spec (limit : Nat) (sort_by : String)
    (store : Store) :
    (∀ a ∈ get_good_news limit sort_by store,
        a.is_good = Option.some true ∧ a ∈ store) ∧
    (get_good_news limit sort_by store).Pairwise
        (fun x y => lowerTitle x ≠ lowerTitle y) ∧
    (∀ a ∈ get_good_news limit sort_by store, ∀ s ∈ store,
        s.is_good = Option.some true → lowerTitle s = lowerTitle a →
        pubLt a.published s.published = false) ∧
    (get_good_news limit sort_by store).length ≤ limit := by
  have hperm : ((dedup_latest (store.filter
      (fun a => a.is_good = Option.some true))).mergeSort
        (order_le sort_by)).Perm
      (dedup_latest (store.filter
        (fun a => a.is_good = Option.some true))) :=
    List.mergeSort_perm _ _
  have hdd := dedup_latest_spec
    (store.filter (fun a => a.is_good = Option.some true))
  have hmem : ∀ a ∈ get_good_news limit sort_by store,
      a ∈ dedup_latest (store.filter
        (fun a => a.is_good = Option.some true)) := by
    intro a ha
    exact hperm.mem_iff.mp (List.mem_of_mem_take ha)
  refine ⟨?_, ?_, ?_, ?_⟩
  · intro a ha
    have hg := hdd.2.1 a (hmem a ha)
    have := List.mem_filter.mp hg
    exact ⟨of_decide_eq_true this.2, this.1⟩
  · have hsorted : ((dedup_latest (store.filter
        (fun a => a.is_good = Option.some true))).mergeSort
          (order_le sort_by)).Pairwise
        (fun x y => lowerTitle x ≠ lowerTitle y) :=
      (hperm.pairwise_iff (fun h he => h he.symm)).mpr hdd.1
    exact hsorted.sublist (List.take_sublist _ _)
  · intro a ha s hs hsg hts
    have hsgood : s ∈ store.filter
        (fun a => a.is_good = Option.some true) :=
      List.mem_filter.mpr ⟨hs, decide_eq_true hsg⟩
    exact hdd.2.2 a (hmem a ha) s hsgood hts
  · exact List.length_take_le _ _

/-- Witness for C6 at a concrete store and limit. -/
theorem get_good_news_spec_witness :
    (get_good_news 10 "published" [userRow]).length ≤ 10 :=
  (get_good_news_spec 10 "published" [userRow]).2.2.2
